import Mathlib

/-!
# pebble-binary: a shallow embedding of `src/main.c`

The watchface keeps six boolean settings, three text buffers and the last
known bluetooth state in globals, and reacts to four host events (minute
tick, battery change, bluetooth change, inbound app message).  Globals become
the record `State`; what a handler reads from the host at the moment it runs
(`time`, `clock_is_24h_style`, the two service peeks) becomes the record
`Host`; what a handler asks the host to do (vibrate, send a message, mark the
layer dirty) becomes a list of `Effect`s returned next to the new state.

C `int`/`short` values are `Int`; `short` conversions are explicit
(`short`).  A C string is the list of its `char`s before the terminating NUL.
-/

namespace PebbleBinary

/-! ## Layout constants (the anonymous `enum` of `main.c`) -/

def SCREEN_WIDTH : Int := 144
def SCREEN_HEIGHT : Int := 168
def CIRCLE_LINE_THICKNESS : Int := 2
def CIRCLE_PADDING : Int := 2
def SIDE_PADDING : Int := 12
def HOURS_MAX_COLS : Int := 4
def MINUTES_MAX_COLS : Int := 6
def HOURS_ROW_START : Int := SIDE_PADDING
def MINUTES_ROW_START : Int := 4 * SIDE_PADDING

/-! ## C arithmetic helpers -/

/-- Conversion of an `int` to the 16-bit `short` (two's complement wrap). -/
def short (x : Int) : Int := (x + 32768) % 65536 - 32768

/-- C `a || b` on integers: 1 when either operand is non-zero, else 0. -/
def c_lor (a b : Int) : Int := if a ≠ 0 ∨ b ≠ 0 then 1 else 0

/-- C `(digit >> i) & 0x1` converted to `bool`. -/
def bit_is_set (digit : Int) (i : Nat) : Bool := decide (Int.land (digit >>> i) 1 ≠ 0)

/-- `snprintf(buf, size, ...)`: of the formatted text, the first `size - 1`
characters are stored (the last byte of the buffer holds the NUL). -/
def snprintf (size : Nat) (formatted : List Char) : List Char := formatted.take (size - 1)

/-- The `%d` conversion: decimal digits, with a leading minus sign for negatives. -/
def fmt_d (v : Int) : List Char :=
  if v < 0 then '-' :: Nat.toDigits 10 v.natAbs else Nat.toDigits 10 v.natAbs

/-! ## Global state, host inputs and effects -/

/-- The keys under which the six settings travel and are persisted
(`MESSAGE_KEY_BATTERY_PERCENTAGE` ... `MESSAGE_KEY_HOURLY_VIBRATE`). -/
inductive SettingKey
  | BATTERY_PERCENTAGE
  | SHOW_DATE
  | SHOW_WEATHER
  | INVERT_COLOURS
  | BLUETOOTH_VIBRATE
  | HOURLY_VIBRATE
  deriving DecidableEq, Repr

/-- An inbound app message as `dict_find` sees it: for each key the handler
looks up, the tuple's value when the key is present. -/
structure DictionaryIterator where
  TEMPERATURE : Option Int
  CONDITIONS : Option (List Char)
  setting : SettingKey → Option Int

inductive GColor
  | GColorBlack
  | GColorWhite
  | GColorClear
  deriving DecidableEq, Repr

/-- The file-scope variables of `main.c`, the function-local `static` buffers,
the visible properties of the window built by `main_window_load`, and the
persistent storage the settings are kept in. -/
structure State where
  BATTERY_PERCENTAGE : Bool
  SHOW_DATE : Bool
  SHOW_WEATHER : Bool
  INVERT_COLOURS : Bool
  BLUETOOTH_VIBRATE : Bool
  HOURLY_VIBRATE : Bool
  bluetooth_connected : Bool
  weather_layer_buffer : List Char
  temperature_buffer : List Char
  conditions_buffer : List Char
  battery_text : List Char
  date_layer_buffer : List Char
  window_background : GColor
  text_color : GColor
  date_hidden : Bool
  weather_hidden : Bool
  battery_hidden : Bool
  persist : SettingKey → Option Bool

structure BatteryChargeState where
  charge_percent : Int
  is_charging : Bool

/-- What a handler reads from the host while it runs. -/
structure Host where
  tm_hour : Int
  tm_min : Int
  strftime_B_e : List Char
  clock_is_24h_style : Bool
  battery_state_service_peek : BatteryChargeState
  bluetooth_connection_service_peek : Bool

/-- What a handler asks the host to do.  An outbound message is the list of
its `(key, value)` fields. -/
inductive Effect
  | vibes_double_pulse
  | vibes_short_pulse
  | layer_mark_dirty
  | app_message_outbox_send (fields : List (Nat × Nat))
  deriving DecidableEq, Repr

/-! ## The binary grid -/

structure GPoint where
  x : Int
  y : Int
  deriving DecidableEq, Repr

/-- One call `draw_cell(ctx, center, radius, filled)`. -/
structure Cell where
  center : GPoint
  radius : Int
  filled : Bool
  deriving DecidableEq, Repr

/-- The circles `draw_cell` fills, in order: the disc in the foreground colour,
then, for a cell that is not filled, the inner disc in the background colour. -/
def draw_cell (INVERT_COLOURS : Bool) (c : Cell) : List (GColor × GPoint × Int) :=
  (if INVERT_COLOURS then GColor.GColorBlack else GColor.GColorWhite, c.center, c.radius) ::
    (if !c.filled then
      [(if INVERT_COLOURS then GColor.GColorWhite else GColor.GColorBlack, c.center,
        c.radius - CIRCLE_LINE_THICKNESS)]
    else [])

/-- The local `cell_size` of `get_cell_centre`. -/
def cell_size (radius : Int) : Int := short (2 * (radius + CIRCLE_PADDING))

def get_cell_centre (x y radius : Int) : GPoint :=
  GPoint.mk
    (short (SCREEN_WIDTH - (SIDE_PADDING + ((cell_size radius).tdiv 2) + (cell_size radius * x))))
    (short (((cell_size radius).tdiv 2) + y))

/-- The radius computed in the first line of `draw_cell_row_for_digit`. -/
def cell_radius (max_cols : Int) : Int :=
  short ((((SCREEN_WIDTH - (2 * SIDE_PADDING)).tdiv max_cols) - (2 * CIRCLE_PADDING)).tdiv 2)

/-- The cells drawn by the loop `for (int i = 0; i < max_cols; i++)`, column 0 first. -/
def draw_cell_row_for_digit (digit max_cols cell_row : Int) : List Cell :=
  let radius := cell_radius max_cols
  (List.range max_cols.toNat).map fun (i : Nat) =>
    Cell.mk (get_cell_centre (short (i : Int)) cell_row radius) radius (bit_is_set digit i)

def get_display_hour (clock_is_24h_style : Bool) (hour : Int) : Int :=
  if clock_is_24h_style then hour
  else short (c_lor (hour.tmod 12) 12)

/-- The two rows drawn by one update of the display layer: hour row, minute row. -/
def display_layer_update_callback (s : State) (h : Host) : List Cell × List Cell :=
  let display_hour := short (get_display_hour h.clock_is_24h_style (short h.tm_hour))
  let hours_bits := short (HOURS_MAX_COLS + (if h.clock_is_24h_style then 1 else 0))
  let PADDING : Int := if s.SHOW_DATE == false && s.SHOW_WEATHER == false then 40 else 0
  (draw_cell_row_for_digit display_hour hours_bits (short (HOURS_ROW_START + PADDING)),
   draw_cell_row_for_digit (short h.tm_min) MINUTES_MAX_COLS (short (MINUTES_ROW_START + PADDING)))

/-- The number a row shows: the sum of `2^i` over its filled columns `i`. -/
def row_value (cells : List Cell) : Nat :=
  (((List.range cells.length).filter fun i => (cells[i]?).any fun c => c.filled).map
    fun i => 2 ^ i).sum

/-! ## Settings persistence -/

/-- Modelled from the spec: `load_setting` of `settings.c`, which `main.c`
includes and which is not among the sources.  Spec 4.1: "`load(key, default)
-> bool`: returns persisted value if present, else `default`." -/
def load_setting (persist : SettingKey → Option Bool) (key : SettingKey)
    (default_value : Bool) : Bool :=
  match persist key with
  | some v => v
  | none => default_value

/-- Modelled from the spec: `save_setting` of `settings.c`, which `main.c`
includes and which is not among the sources.  Spec 4.1: "`save(key, value)`:
persists a single boolean under `key`", "once per key present in an inbound
sync payload"; spec 6: the carried value is "an integer 0/1 interpreted as
boolean".  A key the payload does not carry leaves the storage as it was. -/
def save_setting (persist : SettingKey → Option Bool) (iter : DictionaryIterator)
    (key : SettingKey) : SettingKey → Option Bool :=
  match iter.setting key with
  | some v => fun k => if k = key then some (decide (v ≠ 0)) else persist k
  | none => persist

def save_settings (s : State) (iter : DictionaryIterator) : State :=
  let p1 := save_setting s.persist iter SettingKey.BATTERY_PERCENTAGE
  let p2 := save_setting p1 iter SettingKey.SHOW_DATE
  let p3 := save_setting p2 iter SettingKey.SHOW_WEATHER
  let p4 := save_setting p3 iter SettingKey.INVERT_COLOURS
  let p5 := save_setting p4 iter SettingKey.BLUETOOTH_VIBRATE
  let p6 := save_setting p5 iter SettingKey.HOURLY_VIBRATE
  { s with persist := p6 }

def update_settings (s : State) : State :=
  { s with
    BATTERY_PERCENTAGE := load_setting s.persist SettingKey.BATTERY_PERCENTAGE s.BATTERY_PERCENTAGE
    SHOW_DATE := load_setting s.persist SettingKey.SHOW_DATE s.SHOW_DATE
    SHOW_WEATHER := load_setting s.persist SettingKey.SHOW_WEATHER s.SHOW_WEATHER
    INVERT_COLOURS := load_setting s.persist SettingKey.INVERT_COLOURS s.INVERT_COLOURS
    BLUETOOTH_VIBRATE := load_setting s.persist SettingKey.BLUETOOTH_VIBRATE s.BLUETOOTH_VIBRATE
    HOURLY_VIBRATE := load_setting s.persist SettingKey.HOURLY_VIBRATE s.HOURLY_VIBRATE }

/-- The current value of the global that belongs to a settings key. -/
def State.setting (s : State) : SettingKey → Bool
  | SettingKey.BATTERY_PERCENTAGE => s.BATTERY_PERCENTAGE
  | SettingKey.SHOW_DATE => s.SHOW_DATE
  | SettingKey.SHOW_WEATHER => s.SHOW_WEATHER
  | SettingKey.INVERT_COLOURS => s.INVERT_COLOURS
  | SettingKey.BLUETOOTH_VIBRATE => s.BLUETOOTH_VIBRATE
  | SettingKey.HOURLY_VIBRATE => s.HOURLY_VIBRATE

/-! ## Event handlers -/

/-- The buffer `battery_text` has `sizeof("100% charged") = 13` bytes. -/
def handle_battery (s : State) (charge_state : BatteryChargeState) : State :=
  if charge_state.is_charging then
    { s with battery_text := snprintf 13 "charging".toList }
  else
    { s with battery_text := snprintf 13 (fmt_d charge_state.charge_percent ++ "% charged".toList) }

def handle_bluetooth (s : State) (connected : Bool) : State × List Effect :=
  if s.BLUETOOTH_VIBRATE && (connected != s.bluetooth_connected) then
    ({ s with bluetooth_connected := connected }, [Effect.vibes_double_pulse])
  else (s, [])

/-- The date text is what the host's `strftime` stores for `"%B %e"`. -/
def update_time (s : State) (h : Host) : State × List Effect :=
  ({ s with date_layer_buffer := h.strftime_B_e },
    [Effect.layer_mark_dirty]
      ++ (if h.tm_min.tmod 30 = 0 then [Effect.app_message_outbox_send [(0, 0)]] else [])
      ++ (if s.HOURLY_VIBRATE && decide (h.tm_min.tmod 60 = 0) then [Effect.vibes_short_pulse]
          else []))

def main_window_load (s : State) (h : Host) : State × List Effect :=
  let s1 := update_settings s
  let s2 := { s1 with
    window_background := if s1.INVERT_COLOURS then GColor.GColorWhite else GColor.GColorBlack
    text_color := if s1.INVERT_COLOURS then GColor.GColorBlack else GColor.GColorWhite
    date_hidden := s1.SHOW_DATE == false
    weather_hidden := s1.SHOW_WEATHER == false
    battery_hidden := s1.BATTERY_PERCENTAGE == false }
  let s3 := handle_battery s2 h.battery_state_service_peek
  let s4 := { s3 with bluetooth_connected := h.bluetooth_connection_service_peek }
  update_time s4 h

/-- Destroying the layers changes none of the globals. -/
def main_window_unload (s : State) : State := s

def tick_handler (s : State) (h : Host) : State × List Effect := update_time s h

def inbox_received_callback (s : State) (iterator : DictionaryIterator) (h : Host) :
    State × List Effect :=
  let s1 :=
    match iterator.TEMPERATURE with
    | some temperature => { s with temperature_buffer := snprintf 8 (fmt_d temperature ++ ['C']) }
    | none => s
  let s2 :=
    match iterator.CONDITIONS with
    | some conditions => { s1 with conditions_buffer := snprintf 32 conditions }
    | none => s1
  let s3 := { s2 with
    weather_layer_buffer :=
      snprintf 32 (s2.temperature_buffer ++ ", ".toList ++ s2.conditions_buffer) }
  let s4 := save_settings s3 iterator
  main_window_load (main_window_unload s4) h

/-- The globals as their initialisers leave them, with the storage found at start. -/
def initial_state (persist : SettingKey → Option Bool) : State where
  BATTERY_PERCENTAGE := true
  SHOW_DATE := true
  SHOW_WEATHER := true
  INVERT_COLOURS := false
  BLUETOOTH_VIBRATE := false
  HOURLY_VIBRATE := false
  bluetooth_connected := true
  weather_layer_buffer := []
  temperature_buffer := []
  conditions_buffer := []
  battery_text := "100% charged".toList
  date_layer_buffer := []
  window_background := GColor.GColorBlack
  text_color := GColor.GColorWhite
  date_hidden := false
  weather_hidden := false
  battery_hidden := false
  persist := persist

/-- Pushing the window runs its `load` handler. -/
def init (persist : SettingKey → Option Bool) (h : Host) : State × List Effect :=
  let s := initial_state persist
  let s1 := { s with weather_layer_buffer := snprintf 32 "Loading...".toList }
  let s2 := { s1 with window_background := GColor.GColorBlack }
  main_window_load s2 h

/-! ## The event loop -/

inductive Event
  | Tick
  | BatteryChange (charge_state : BatteryChargeState)
  | BluetoothChange (connected : Bool)
  | SyncResponse (iterator : DictionaryIterator)

/-- The handler subscribed for an event in `init`, run against the host as it
is when the event is delivered. -/
def dispatch (s : State) (e : Event) (h : Host) : State × List Effect :=
  match e with
  | Event.Tick => tick_handler s h
  | Event.BatteryChange charge_state => (handle_battery s charge_state, [])
  | Event.BluetoothChange connected => handle_bluetooth s connected
  | Event.SyncResponse iterator => inbox_received_callback s iterator h

/-- Handle a sequence of events in order, collecting the effects. -/
def app_event_loop (s : State) : List (Event × Host) → State × List Effect
  | [] => (s, [])
  | (e, h) :: rest =>
    let r := dispatch s e h
    let r2 := app_event_loop r.1 rest
    (r2.1, r.2 ++ r2.2)

/-- The state after a sequence of bluetooth connection events. -/
def after_bluetooth_changes (s : State) (cs : List Bool) : State :=
  cs.foldl (fun st c => (handle_bluetooth st c).1) s

/-- Is this effect a weather-refresh request? -/
def Effect.is_request : Effect → Bool
  | Effect.app_message_outbox_send _ => true
  | _ => false

/-- Is this event a tick delivered at a minute with `minute mod 30 = 0`? -/
def is_triggering_tick : Event × Host → Bool
  | (Event.Tick, h) => decide (h.tm_min.tmod 30 = 0)
  | _ => false


/-! ## Sample inputs -/

/-- Storage in which no setting has been saved yet. -/
def no_storage : SettingKey → Option Bool := fun _ => none

/-- The host at 10:17, 12-hour style, battery at 80%, bluetooth connected. -/
def host_10_17 : Host := ⟨10, 17, "October 30".toList, false, ⟨80, false⟩, true⟩

/-- The host at 10:30, 12-hour style, battery at 80%, bluetooth connected. -/
def host_10_30 : Host := ⟨10, 30, "October 30".toList, false, ⟨80, false⟩, true⟩

/-- The host at 13:37, 24-hour style, battery charging, bluetooth disconnected. -/
def host_13_37 : Host := ⟨13, 37, "October 30".toList, true, ⟨55, true⟩, false⟩

/-- The host at 00:00, 12-hour style. -/
def host_00_00 : Host := ⟨0, 0, "October 31".toList, false, ⟨80, false⟩, true⟩

/-- A response with temperature 21 and conditions "Sunny", no settings. -/
def response_sunny : DictionaryIterator := ⟨some 21, some "Sunny".toList, fun _ => none⟩

/-- A response with conditions "Rain" only. -/
def response_rain_only : DictionaryIterator := ⟨none, some "Rain".toList, fun _ => none⟩

/-- A response whose conditions text has 28 characters. -/
def response_long_conditions : DictionaryIterator :=
  ⟨some 21, some "Thunderstorm with heavy rain".toList, fun _ => none⟩

/-- A response whose temperature has seven digits. -/
def response_long_temperature : DictionaryIterator :=
  ⟨some 1234567, some "Rain".toList, fun _ => none⟩

/-- A response that switches `HOURLY_VIBRATE` on and `SHOW_DATE` off. -/
def response_settings : DictionaryIterator :=
  ⟨none, none, fun k =>
    match k with
    | SettingKey.HOURLY_VIBRATE => some 1
    | SettingKey.SHOW_DATE => some 0
    | _ => none⟩

/-- Storage in which only `BLUETOOTH_VIBRATE` has been saved, as on. -/
def storage_bluetooth_on : SettingKey → Option Bool := fun k =>
  match k with
  | SettingKey.BLUETOOTH_VIBRATE => some true
  | _ => none

/-! ## Arithmetic and list facts used below -/

theorem short_of_small (x : Int) (h0 : -32768 ≤ x) (h1 : x < 32768) : short x = x := by
  unfold short
  omega

theorem filled_of_row (digit max_cols cell_row : Int) :
    (draw_cell_row_for_digit digit max_cols cell_row).map (fun c => c.filled)
      = (List.range max_cols.toNat).map (bit_is_set digit) := by
  simp [draw_cell_row_for_digit, List.map_map, Function.comp_def]

theorem row_value_of_filled (cells : List Cell) :
    row_value cells
      = (((List.range cells.length).filter fun i =>
          ((cells.map fun c => c.filled)[i]?).getD false).map fun i => 2 ^ i).sum := by
  unfold row_value
  congr 2
  apply List.filter_congr
  intro i _
  cases h : cells[i]? <;> simp [h]

set_option maxRecDepth 100000 in
theorem bits_of_small_digit :
    ∀ n < 7, ∀ d < 2 ^ n,
      ((((List.range n).filter fun i =>
          (((List.range n).map (bit_is_set (d : Nat)))[i]?).getD false).map fun i => 2 ^ i).sum = d)
      ∧ ∀ i < n, (bit_is_set (d : Nat) i = true ↔ (d : Int) / 2 ^ i % 2 = 1) := by
  decide


theorem row_facts (n d : Nat) (hn : n < 7) (hd : d < 2 ^ n) (cell_row : Int) :
    (draw_cell_row_for_digit (d : Nat) (n : Nat) cell_row).length = n ∧
    row_value (draw_cell_row_for_digit (d : Nat) (n : Nat) cell_row) = d ∧
    ∀ i c, (draw_cell_row_for_digit (d : Nat) (n : Nat) cell_row)[i]? = some c →
      (c.filled = true ↔ (d : Int) / 2 ^ i % 2 = 1) := by
  have hlen : (draw_cell_row_for_digit (d : Nat) (n : Nat) cell_row).length = n := by
    simp [draw_cell_row_for_digit]
  refine ⟨hlen, ?_, ?_⟩
  · rw [row_value_of_filled, filled_of_row, hlen, Int.toNat_ofNat]
    exact (bits_of_small_digit n hn d hd).1
  · intro i c hc
    have hi : i < n := by
      have := (List.getElem?_eq_some_iff.mp hc).1
      omega
    have hf : c.filled = bit_is_set (d : Nat) i := by
      have h2 : ((draw_cell_row_for_digit (d : Nat) (n : Nat) cell_row).map
          fun c => c.filled)[i]? = some c.filled := by
        rw [List.getElem?_map, hc]
        rfl
      rw [filled_of_row, Int.toNat_ofNat, List.getElem?_map, List.getElem?_range hi] at h2
      simpa using h2.symm
    rw [hf]
    exact (bits_of_small_digit n hn d hd).2 i hi

theorem get_display_hour_12h (hour : Int) : get_display_hour false hour = 1 := by
  simp [get_display_hour, c_lor, short]

/-- C3. For every hour in 0..23, minute in 0..59 and both clock formats, the
display update draws an hour row of 4 cells (12-hour style) or 5 cells (24-hour
style) and a minute row of 6 cells; cell `i` of a row is filled exactly when
bit `i` of the row's value is 1, and the sum of `2^i` over the filled columns
is the value `get_display_hour` returns for the hour row and the minute for the
minute row. -/
theorem display_layer_update_callback_shows_time (s : State) (h : Host)
    (hh : 0 ≤ h.tm_hour ∧ h.tm_hour < 24) (hm : 0 ≤ h.tm_min ∧ h.tm_min < 60) :
    ((display_layer_update_callback s h).1.length = if h.clock_is_24h_style then 5 else 4) ∧
    (display_layer_update_callback s h).2.length = 6 ∧
    (∀ i c, (display_layer_update_callback s h).1[i]? = some c →
      (c.filled = true ↔ get_display_hour h.clock_is_24h_style h.tm_hour / 2 ^ i % 2 = 1)) ∧
    (∀ i c, (display_layer_update_callback s h).2[i]? = some c →
      (c.filled = true ↔ h.tm_min / 2 ^ i % 2 = 1)) ∧
    (row_value (display_layer_update_callback s h).1 : Int)
      = get_display_hour h.clock_is_24h_style h.tm_hour ∧
    (row_value (display_layer_update_callback s h).2 : Int) = h.tm_min := by
  obtain ⟨k, hk⟩ := Int.eq_ofNat_of_zero_le hh.1
  obtain ⟨m, hmk⟩ := Int.eq_ofNat_of_zero_le hm.1
  have hk24 : k < 24 := by omega
  have hm60 : m < 60 := by omega
  have hsm : short (m : Nat) = (m : Nat) := short_of_small _ (by omega) (by omega)
  have hsk : short (k : Nat) = (k : Nat) := short_of_small _ (by omega) (by omega)
  have hmin := row_facts 6 m (by decide) (by norm_num; omega)
  cases hc : h.clock_is_24h_style
  · have hrow := row_facts 4 1 (by decide) (by decide)
    simp only [display_layer_update_callback, hc, hmk, hk, get_display_hour_12h, hsm,
      HOURS_MAX_COLS, MINUTES_MAX_COLS]
    have e1 : short 1 = ((1 : Nat) : Int) := by decide
    have e4 : short (4 + if false = true then 1 else 0) = ((4 : Nat) : Int) := by decide
    have e6 : (6 : Int) = ((6 : Nat) : Int) := rfl
    rw [e1, e4, e6]
    refine ⟨(hrow _).1, (hmin _).1, (hrow _).2.2, (hmin _).2.2, ?_, ?_⟩
    · rw [(hrow _).2.1]
      rfl
    · rw [(hmin _).2.1]
  · have hrow := row_facts 5 k (by decide) (by norm_num; omega)
    simp only [display_layer_update_callback, hc, hmk, hk, get_display_hour, hsm, hsk,
      HOURS_MAX_COLS, MINUTES_MAX_COLS, if_true]
    have e5 : short (4 + 1) = ((5 : Nat) : Int) := by decide
    have e6 : (6 : Int) = ((6 : Nat) : Int) := rfl
    rw [e5, e6]
    refine ⟨(hrow _).1, (hmin _).1, (hrow _).2.2, (hmin _).2.2, ?_, ?_⟩
    · rw [(hrow _).2.1]
    · rw [(hmin _).2.1]

/-- C1. In 12-hour style `get_display_hour` returns 1 for hour 0 (and for hours 5
and 12), not the 12-hour wrap: `hour % 12 || 12` is the truth value of a
logical or. -/
theorem get_display_hour_12h_style_is_one :
    get_display_hour false 0 = 1 ∧ get_display_hour false 0 ≠ 12 ∧
    get_display_hour false 5 = 1 ∧ get_display_hour false 12 = 1 := by
  decide

theorem cell_of_row (digit max_cols cell_row : Int) (i : Nat) (c : Cell)
    (hc : (draw_cell_row_for_digit digit max_cols cell_row)[i]? = some c) :
    i < max_cols.toNat ∧ c.radius = cell_radius max_cols ∧
    c.center.x = short (SCREEN_WIDTH - (SIDE_PADDING
      + ((cell_size (cell_radius max_cols)).tdiv 2)
      + (cell_size (cell_radius max_cols) * short (i : Nat)))) ∧
    c.center = get_cell_centre (short (i : Nat)) cell_row (cell_radius max_cols) := by
  have hi : i < max_cols.toNat := by
    have := (List.getElem?_eq_some_iff.mp hc).1
    simpa [draw_cell_row_for_digit] using this
  simp only [draw_cell_row_for_digit, List.getElem?_map, List.getElem?_range hi,
    Option.map_some', Option.some.injEq] at hc
  subst hc
  exact ⟨hi, rfl, rfl, rfl⟩

theorem row_length (digit cell_row : Int) (n : Nat) :
    (draw_cell_row_for_digit digit n cell_row).length = n := by
  simp [draw_cell_row_for_digit]

theorem centre_x_facts :
    ∀ n ∈ [(4 : Nat), 5, 6], ∀ i < n,
      (SIDE_PADDING ≤ short (SCREEN_WIDTH - (SIDE_PADDING
          + ((cell_size (cell_radius (n : Nat))).tdiv 2)
          + (cell_size (cell_radius (n : Nat)) * short (i : Nat)))) - cell_radius (n : Nat)
        ∧ short (SCREEN_WIDTH - (SIDE_PADDING
          + ((cell_size (cell_radius (n : Nat))).tdiv 2)
          + (cell_size (cell_radius (n : Nat)) * short (i : Nat)))) + cell_radius (n : Nat)
            ≤ SCREEN_WIDTH - SIDE_PADDING)
      ∧ ∀ j < n, i ≠ j →
        2 * cell_radius (n : Nat) + short (SCREEN_WIDTH - (SIDE_PADDING
          + ((cell_size (cell_radius (n : Nat))).tdiv 2)
          + (cell_size (cell_radius (n : Nat)) * short (i : Nat))))
          < short (SCREEN_WIDTH - (SIDE_PADDING
          + ((cell_size (cell_radius (n : Nat))).tdiv 2)
          + (cell_size (cell_radius (n : Nat)) * short (j : Nat))))
        ∨ 2 * cell_radius (n : Nat) + short (SCREEN_WIDTH - (SIDE_PADDING
          + ((cell_size (cell_radius (n : Nat))).tdiv 2)
          + (cell_size (cell_radius (n : Nat)) * short (j : Nat))))
          < short (SCREEN_WIDTH - (SIDE_PADDING
          + ((cell_size (cell_radius (n : Nat))).tdiv 2)
          + (cell_size (cell_radius (n : Nat)) * short (i : Nat)))) := by
  decide

theorem centre_x_exact :
    ∀ n ∈ [(4 : Nat), 5, 6], ∀ i < n,
      0 < cell_radius (n : Nat) ∧
      (n : Int) * (2 * (cell_radius (n : Nat) + CIRCLE_PADDING))
        = SCREEN_WIDTH - 2 * SIDE_PADDING ∧
      short (SCREEN_WIDTH - (SIDE_PADDING
          + ((cell_size (cell_radius (n : Nat))).tdiv 2)
          + (cell_size (cell_radius (n : Nat)) * short (i : Nat))))
        = SCREEN_WIDTH - SIDE_PADDING - (cell_radius (n : Nat) + CIRCLE_PADDING)
          - 2 * (cell_radius (n : Nat) + CIRCLE_PADDING) * (i : Nat) := by
  decide

theorem row_ends :
    ∀ n ∈ [(4 : Nat), 5, 6],
      short (SCREEN_WIDTH - (SIDE_PADDING
          + ((cell_size (cell_radius (n : Nat))).tdiv 2)
          + (cell_size (cell_radius (n : Nat)) * short ((0 : Nat) : Int))))
        + cell_radius (n : Nat) + CIRCLE_PADDING = SCREEN_WIDTH - SIDE_PADDING ∧
      short (SCREEN_WIDTH - (SIDE_PADDING
          + ((cell_size (cell_radius (n : Nat))).tdiv 2)
          + (cell_size (cell_radius (n : Nat)) * short ((n - 1 : Nat) : Int))))
        - cell_radius (n : Nat) - CIRCLE_PADDING = SIDE_PADDING := by
  decide

/-- C9. For a row of `n` = 4, 5 or 6 columns drawn by `draw_cell_row_for_digit`
(any digit, any row offset): the row has exactly `n` cells, one per column
`0..n-1`; the cell of column `i` has the radius computed from `n`
(`((144 - 2*12) / n - 2*2) / 2`, positive) and the centre `get_cell_centre`
computes, whose `x` is `144 - 12 - (radius + 2) - 2 * (radius + 2) * i`; the `n`
cells of size `2 * (radius + 2)` tile the available width
(`n * cell_size = 144 - 2*12`), with column 0's cell box ending at `144 - 12`
and column `n-1`'s starting at `12`; the centres of two distinct columns are
more than `2 * radius` apart; and every cell's horizontal extent
`[centre.x - radius, centre.x + radius]` lies in `[12, 132]`. -/
theorem cell_row_geometry (n : Nat) (hn : n = 4 ∨ n = 5 ∨ n = 6) (digit cell_row : Int) :
    (draw_cell_row_for_digit digit n cell_row).length = n ∧
    (∀ i < n, ∃ c, (draw_cell_row_for_digit digit n cell_row)[i]? = some c) ∧
    (n : Int) * cell_size (cell_radius n) = SCREEN_WIDTH - 2 * SIDE_PADDING ∧
    (∀ (i : Nat) (c : Cell), (draw_cell_row_for_digit digit n cell_row)[i]? = some c →
      c.radius = cell_radius n ∧
      c.center = get_cell_centre (short (i : Nat)) cell_row (cell_radius n) ∧
      0 < c.radius ∧
      (n : Int) * (2 * (c.radius + CIRCLE_PADDING)) = SCREEN_WIDTH - 2 * SIDE_PADDING ∧
      c.center.x = SCREEN_WIDTH - SIDE_PADDING - (c.radius + CIRCLE_PADDING)
        - 2 * (c.radius + CIRCLE_PADDING) * (i : Nat)) ∧
    (∃ c0 cl, (draw_cell_row_for_digit digit n cell_row)[0]? = some c0 ∧
      (draw_cell_row_for_digit digit n cell_row)[n - 1]? = some cl ∧
      c0.center.x + c0.radius + CIRCLE_PADDING = SCREEN_WIDTH - SIDE_PADDING ∧
      cl.center.x - cl.radius - CIRCLE_PADDING = SIDE_PADDING) ∧
    (∀ (i j : Nat) (ci cj : Cell), (draw_cell_row_for_digit digit n cell_row)[i]? = some ci →
      (draw_cell_row_for_digit digit n cell_row)[j]? = some cj → i ≠ j →
      ci.radius = cj.radius ∧
      (2 * ci.radius + ci.center.x < cj.center.x ∨ 2 * ci.radius + cj.center.x < ci.center.x)) ∧
    (∀ (i : Nat) (c : Cell), (draw_cell_row_for_digit digit n cell_row)[i]? = some c →
      SIDE_PADDING ≤ c.center.x - c.radius ∧
      c.center.x + c.radius ≤ SCREEN_WIDTH - SIDE_PADDING) := by
  have hmem : n ∈ [(4 : Nat), 5, 6] := by
    rcases hn with h | h | h <;> simp [h]
  have hlen := row_length digit cell_row n
  have hex : ∀ i < n, ∃ c, (draw_cell_row_for_digit digit n cell_row)[i]? = some c := by
    intro i hi
    exact ⟨(draw_cell_row_for_digit digit n cell_row)[i],
      List.getElem?_eq_getElem (by omega)⟩
  have hpos : 0 < n := by
    rcases hn with h | h | h <;> omega
  refine ⟨hlen, hex, ?_, ?_, ?_, ?_, ?_⟩
  · rcases hn with h | h | h <;> subst h <;> decide
  · intro i c hc
    obtain ⟨h1, h2, h3, h4⟩ := cell_of_row digit n cell_row i c hc
    rw [Int.toNat_ofNat] at h1
    obtain ⟨e1, e2, e3⟩ := centre_x_exact n hmem i h1
    refine ⟨h2, h4, ?_, ?_, ?_⟩
    · rw [h2]
      exact e1
    · rw [h2]
      exact e2
    · rw [h3, h2]
      exact e3
  · obtain ⟨c0, hc0⟩ := hex 0 hpos
    obtain ⟨cl, hcl⟩ := hex (n - 1) (by omega)
    obtain ⟨_, a2, a3, _⟩ := cell_of_row digit n cell_row 0 c0 hc0
    obtain ⟨_, b2, b3, _⟩ := cell_of_row digit n cell_row (n - 1) cl hcl
    refine ⟨c0, cl, hc0, hcl, ?_, ?_⟩
    · rw [a3, a2]
      exact (row_ends n hmem).1
    · rw [b3, b2]
      exact (row_ends n hmem).2
  · intro i j ci cj hi hj hij
    obtain ⟨hi1, hi2, hi3, _⟩ := cell_of_row digit n cell_row i ci hi
    obtain ⟨hj1, hj2, hj3, _⟩ := cell_of_row digit n cell_row j cj hj
    rw [Int.toNat_ofNat] at hi1 hj1
    rw [hi2, hj2, hi3, hj3]
    exact ⟨rfl, (centre_x_facts n hmem i hi1).2 j hj1 hij⟩
  · intro i c hc
    obtain ⟨h1, h2, h3, _⟩ := cell_of_row digit n cell_row i c hc
    rw [Int.toNat_ofNat] at h1
    rw [h2, h3]
    exact (centre_x_facts n hmem i h1).1

/-- C7. For every minute in 0..59 and every state (whatever the settings are), a
tick handled by `update_time` sends a request exactly when `minute mod 30 = 0`,
that is at minutes 0 and 30; it sends at most one, and a request sent carries
the single field key 0 with value 0. -/
theorem update_time_requests_weather (s : State) (h : Host)
    (hm : 0 ≤ h.tm_min ∧ h.tm_min < 60) :
    ((∃ fields, Effect.app_message_outbox_send fields ∈ (update_time s h).2)
      ↔ h.tm_min % 30 = 0) ∧
    (h.tm_min % 30 = 0 ↔ h.tm_min = 0 ∨ h.tm_min = 30) ∧
    (∀ fields, Effect.app_message_outbox_send fields ∈ (update_time s h).2 →
      fields = [(0, 0)]) ∧
    ((update_time s h).2.countP Effect.is_request ≤ 1) := by
  have e30 : h.tm_min.tmod 30 = h.tm_min % 30 := Int.tmod_eq_emod hm.1 (by decide)
  refine ⟨?_, by omega, ?_, ?_⟩
  · simp only [update_time, e30]
    by_cases h30 : h.tm_min % 30 = 0
    · simp [h30]
    · by_cases hv : s.HOURLY_VIBRATE && decide (h.tm_min.tmod 60 = 0) <;> simp [h30, hv]
  · intro fields
    simp only [update_time, e30]
    by_cases h30 : h.tm_min % 30 = 0
    · by_cases hv : s.HOURLY_VIBRATE && decide (h.tm_min.tmod 60 = 0) <;> simp [h30, hv]
    · by_cases hv : s.HOURLY_VIBRATE && decide (h.tm_min.tmod 60 = 0) <;> simp [h30, hv]
  · simp only [update_time, e30]
    by_cases h30 : h.tm_min % 30 = 0
    · by_cases hv : s.HOURLY_VIBRATE && decide (h.tm_min.tmod 60 = 0) <;>
        simp [h30, hv, List.countP_cons, Effect.is_request]
    · by_cases hv : s.HOURLY_VIBRATE && decide (h.tm_min.tmod 60 = 0) <;>
        simp [h30, hv, List.countP_cons, Effect.is_request]

/-- C8. For every minute in 0..59 and every state, a tick handled by
`update_time` triggers the short vibration exactly when `HOURLY_VIBRATE` is set
and `minute mod 60 = 0`, that is at minute 0. -/
theorem update_time_hourly_vibrate (s : State) (h : Host)
    (hm : 0 ≤ h.tm_min ∧ h.tm_min < 60) :
    (Effect.vibes_short_pulse ∈ (update_time s h).2
      ↔ s.HOURLY_VIBRATE = true ∧ h.tm_min % 60 = 0) ∧
    (h.tm_min % 60 = 0 ↔ h.tm_min = 0) := by
  have e60 : h.tm_min.tmod 60 = h.tm_min % 60 := Int.tmod_eq_emod hm.1 (by decide)
  refine ⟨?_, by omega⟩
  simp only [update_time, e60]
  by_cases h30 : h.tm_min.tmod 30 = 0 <;> by_cases h60 : h.tm_min % 60 = 0 <;>
    cases hv : s.HOURLY_VIBRATE <;> simp [h30, h60, hv]

theorem handle_bluetooth_vibrate_on (s : State) (connected : Bool)
    (hv : s.BLUETOOTH_VIBRATE = true) :
    (handle_bluetooth s connected).1.BLUETOOTH_VIBRATE = true ∧
    (handle_bluetooth s connected).1.bluetooth_connected = connected ∧
    (Effect.vibes_double_pulse ∈ (handle_bluetooth s connected).2
      ↔ connected ≠ s.bluetooth_connected) := by
  cases hc : connected <;> cases hb : s.bluetooth_connected <;>
    simp [handle_bluetooth, hv, hb]

theorem after_bluetooth_changes_snoc (s : State) (cs : List Bool) (c : Bool) :
    after_bluetooth_changes s (cs ++ [c])
      = (handle_bluetooth (after_bluetooth_changes s cs) c).1 := by
  simp [after_bluetooth_changes, List.foldl_append]

theorem after_bluetooth_changes_last (s : State) (hv : s.BLUETOOTH_VIBRATE = true)
    (cs : List Bool) :
    (after_bluetooth_changes s cs).BLUETOOTH_VIBRATE = true ∧
    ∀ k, k ≤ cs.length →
      some (after_bluetooth_changes s (cs.take k)).bluetooth_connected
        = (s.bluetooth_connected :: cs)[k]? := by
  induction cs using List.reverseRecOn with
  | nil =>
    refine ⟨hv, ?_⟩
    intro k hk
    have : k = 0 := by simpa using hk
    subst this
    rfl
  | append_singleton cs c ih =>
    obtain ⟨ihv, ihk⟩ := ih
    have hstep := handle_bluetooth_vibrate_on (after_bluetooth_changes s cs) c ihv
    refine ⟨?_, ?_⟩
    · rw [after_bluetooth_changes_snoc]
      exact hstep.1
    · intro k hk
      rw [List.length_append, List.length_singleton] at hk
      rcases Nat.lt_or_ge k (cs.length + 1) with hlt | hge
      · have hk2 : k ≤ cs.length := by omega
        rw [List.take_append_of_le_length hk2, ihk k hk2]
        rw [← List.cons_append, List.getElem?_append_left (by simp; omega)]
      · have hk3 : k = cs.length + 1 := by omega
        subst hk3
        have : (cs ++ [c]).take (cs.length + 1) = cs ++ [c] := by
          apply List.take_of_length_le
          simp
        rw [this, after_bluetooth_changes_snoc, hstep.2.1]
        simp

/-- C4. Let `main_window_load` capture the connection state `c0` and leave
`BLUETOOTH_VIBRATE` set, and let `cs = c1..cn` be the following bluetooth events.
Loading the window stores `c0` and emits no double pulse: its effects are those
of the `update_time` call that ends it, the capture adds none.  Before event `k`
the stored `bluetooth_connected` is the previously observed state `c(k-1)`,
event `k` emits the double pulse exactly when `ck` differs from `c(k-1)`, and
after it the stored state is `ck`. -/
theorem handle_bluetooth_vibrates_on_change (s : State) (h : Host) (cs : List Bool)
    (hv : (main_window_load s h).1.BLUETOOTH_VIBRATE = true) :
    Effect.vibes_double_pulse ∉ (main_window_load s h).2 ∧
    (main_window_load s h).2 = (update_time (update_settings s) h).2 ∧
    (main_window_load s h).1.bluetooth_connected = h.bluetooth_connection_service_peek ∧
    ∀ (k : Nat) (ck prev : Bool), cs[k]? = some ck →
      (h.bluetooth_connection_service_peek :: cs)[k]? = some prev →
      (after_bluetooth_changes (main_window_load s h).1 (cs.take k)).bluetooth_connected = prev ∧
      (Effect.vibes_double_pulse ∈
          (handle_bluetooth (after_bluetooth_changes (main_window_load s h).1 (cs.take k)) ck).2
        ↔ ck ≠ prev) ∧
      (handle_bluetooth (after_bluetooth_changes (main_window_load s h).1 (cs.take k))
        ck).1.bluetooth_connected = ck := by
  have hpeek : (main_window_load s h).1.bluetooth_connected
      = h.bluetooth_connection_service_peek := by
    simp only [main_window_load, update_time, handle_battery]
  refine ⟨?_, ?_, hpeek, ?_⟩
  · simp only [main_window_load, update_time]
    intro hmem
    simp only [List.mem_append, List.mem_singleton] at hmem
    rcases hmem with (hmem | hmem) | hmem
    · cases hmem
    · split at hmem <;> simp at hmem
    · split at hmem <;> simp at hmem
  · simp only [main_window_load, update_time, handle_battery]
    cases h.battery_state_service_peek.is_charging <;> rfl
  · intro k ck prev hck hprev
    have hk : k ≤ cs.length := by
      have := (List.getElem?_eq_some_iff.mp hck).1
      omega
    obtain ⟨_, hlast⟩ := after_bluetooth_changes_last (main_window_load s h).1 hv cs
    have hstored := hlast k hk
    rw [hpeek, hprev] at hstored
    have hstored2 : (after_bluetooth_changes (main_window_load s h).1
        (cs.take k)).bluetooth_connected = prev := by
      simpa using hstored
    have hvk := (after_bluetooth_changes_last (main_window_load s h).1 hv (cs.take k)).1
    have hstep := handle_bluetooth_vibrate_on _ ck hvk
    refine ⟨hstored2, ?_, hstep.2.1⟩
    rw [hstep.2.2, hstored2]

theorem save_setting_apply (persist : SettingKey → Option Bool) (iter : DictionaryIterator)
    (key k : SettingKey) :
    save_setting persist iter key k
      = if k = key then
          (match iter.setting key with
            | some v => some (decide (v ≠ 0))
            | none => persist k)
        else persist k := by
  unfold save_setting
  cases iter.setting key <;> simp

theorem save_settings_persist (s : State) (iter : DictionaryIterator) (k : SettingKey) :
    (save_settings s iter).persist k
      = match iter.setting k with
        | some v => some (decide (v ≠ 0))
        | none => s.persist k := by
  simp only [save_settings, save_setting_apply]
  cases k <;> simp

theorem save_settings_setting (s : State) (iter : DictionaryIterator) (k : SettingKey) :
    (save_settings s iter).setting k = s.setting k := by
  cases k <;> rfl

theorem update_settings_setting (s : State) (k : SettingKey) :
    (update_settings s).setting k = load_setting s.persist k (s.setting k) := by
  cases k <;> rfl

theorem main_window_load_setting (s : State) (h : Host) (k : SettingKey) :
    (main_window_load s h).1.setting k = load_setting s.persist k (s.setting k) := by
  rw [← update_settings_setting]
  simp only [main_window_load, update_time, handle_battery]
  cases k <;> split <;> rfl

theorem inbox_received_callback_before_load (s : State) (iterator : DictionaryIterator)
    (h : Host) :
    ∃ s3 : State, inbox_received_callback s iterator h
        = main_window_load (main_window_unload (save_settings s3 iterator)) h ∧
      s3.persist = s.persist ∧ ∀ k, s3.setting k = s.setting k := by
  refine ⟨_, rfl, ?_, ?_⟩
  · cases iterator.TEMPERATURE <;> cases iterator.CONDITIONS <;> rfl
  · intro k
    cases iterator.TEMPERATURE <;> cases iterator.CONDITIONS <;> cases k <;> rfl

/-- C5. Whatever the current settings, if the storage agrees with them (each key
is absent or holds the current value), then after `inbox_received_callback`
each setting whose key the payload carries equals the carried value read as a
boolean, and each setting whose key is not carried keeps its previous value. -/
theorem inbox_received_callback_updates_carried_settings (s : State)
    (iterator : DictionaryIterator) (h : Host)
    (hstore : ∀ k, s.persist k = none ∨ s.persist k = some (s.setting k)) (k : SettingKey) :
    (inbox_received_callback s iterator h).1.setting k
      = match iterator.setting k with
        | some v => decide (v ≠ 0)
        | none => s.setting k := by
  obtain ⟨s3, heq, hp, hs⟩ := inbox_received_callback_before_load s iterator h
  rw [heq, main_window_unload, main_window_load_setting, save_settings_setting,
    load_setting, save_settings_persist, hp, hs]
  cases hk : iterator.setting k with
  | some v => rfl
  | none =>
    rcases hstore k with hn | hsome
    · simp [hn]
    · simp [hsome]

theorem main_window_load_buffers (s : State) (h : Host) :
    (main_window_load s h).1.temperature_buffer = s.temperature_buffer ∧
    (main_window_load s h).1.conditions_buffer = s.conditions_buffer ∧
    (main_window_load s h).1.weather_layer_buffer = s.weather_layer_buffer := by
  simp only [main_window_load, update_time, handle_battery]
  split <;> exact ⟨rfl, rfl, rfl⟩

/-- C2 (as stated, refuted). After a response with temperature 21 and "Sunny", a
response carrying only the conditions "Rain" leaves the temperature part "21C"
in place and the weather text reads "21C, Rain". -/
theorem conditions_only_keeps_stale_temperature :
    response_rain_only.TEMPERATURE = none ∧
    response_rain_only.CONDITIONS = some "Rain".toList ∧
    (inbox_received_callback
      (inbox_received_callback (init no_storage host_10_17).1 response_sunny host_10_17).1
      response_rain_only host_10_17).1.temperature_buffer = "21C".toList ∧
    (inbox_received_callback
      (inbox_received_callback (init no_storage host_10_17).1 response_sunny host_10_17).1
      response_rain_only host_10_17).1.temperature_buffer ≠ [] ∧
    (inbox_received_callback
      (inbox_received_callback (init no_storage host_10_17).1 response_sunny host_10_17).1
      response_rain_only host_10_17).1.weather_layer_buffer = "21C, Rain".toList := by
  decide

/-- C2 (amended). For every prior state and every response that carries
CONDITIONS `c` but no TEMPERATURE, after `inbox_received_callback` the
temperature part is the temperature text stored before the event (so it is
empty exactly when it was empty before), the conditions part is the first 31
characters of `c`, and the weather text is the first 31 characters of
"temperature part, conditions part". -/
theorem inbox_received_callback_conditions_only (s : State) (iterator : DictionaryIterator)
    (h : Host) (c : List Char)
    (ht : iterator.TEMPERATURE = none) (hc : iterator.CONDITIONS = some c) :
    (inbox_received_callback s iterator h).1.temperature_buffer = s.temperature_buffer ∧
    (inbox_received_callback s iterator h).1.conditions_buffer = c.take 31 ∧
    (inbox_received_callback s iterator h).1.weather_layer_buffer
      = (s.temperature_buffer ++ ", ".toList ++ c.take 31).take 31 := by
  simp only [inbox_received_callback, main_window_unload, ht, hc]
  obtain ⟨h1, h2, h3⟩ := main_window_load_buffers
    (save_settings
      { s with
        conditions_buffer := snprintf 32 c
        weather_layer_buffer :=
          snprintf 32 (s.temperature_buffer ++ ", ".toList ++ snprintf 32 c) } iterator) h
  exact ⟨h1, h2, h3⟩

/-- C10 (as stated, refuted). With temperature 21 and the 28-character conditions
"Thunderstorm with heavy rain" the weather text stops after 31 characters; with
temperature 1234567 the "C" after the number is dropped. -/
theorem weather_text_is_cut :
    (inbox_received_callback (init no_storage host_10_17).1 response_long_conditions
      host_10_17).1.weather_layer_buffer = "21C, Thunderstorm with heavy ra".toList ∧
    (inbox_received_callback (init no_storage host_10_17).1 response_long_conditions
      host_10_17).1.weather_layer_buffer
        ≠ fmt_d 21 ++ "C, ".toList ++ "Thunderstorm with heavy rain".toList ∧
    (inbox_received_callback (init no_storage host_10_17).1 response_long_temperature
      host_10_17).1.weather_layer_buffer = "1234567, Rain".toList ∧
    (inbox_received_callback (init no_storage host_10_17).1 response_long_temperature
      host_10_17).1.weather_layer_buffer ≠ fmt_d 1234567 ++ "C, ".toList ++ "Rain".toList := by
  decide

/-- C10 (amended). For every response carrying TEMPERATURE `t` and CONDITIONS
`c`, the weather text is the first 31 characters of: the first 7 characters of
the decimal rendering of `t` followed by "C", then ", ", then the first 31
characters of `c`.  It is the full text "tC, c" whenever the rendering of `t`
has at most 6 characters and the full text has at most 31. -/
theorem inbox_received_callback_weather_text (s : State) (iterator : DictionaryIterator)
    (h : Host) (t : Int) (c : List Char)
    (ht : iterator.TEMPERATURE = some t) (hc : iterator.CONDITIONS = some c) :
    (inbox_received_callback s iterator h).1.weather_layer_buffer
      = ((fmt_d t ++ ['C']).take 7 ++ ", ".toList ++ c.take 31).take 31 ∧
    ((fmt_d t).length ≤ 6 → (fmt_d t).length + 3 + c.length ≤ 31 →
      (inbox_received_callback s iterator h).1.weather_layer_buffer
        = fmt_d t ++ "C, ".toList ++ c) := by
  have hw : (inbox_received_callback s iterator h).1.weather_layer_buffer
      = ((fmt_d t ++ ['C']).take 7 ++ ", ".toList ++ c.take 31).take 31 := by
    simp only [inbox_received_callback, main_window_unload, ht, hc]
    exact (main_window_load_buffers
      (save_settings
        { s with
          temperature_buffer := snprintf 8 (fmt_d t ++ ['C'])
          conditions_buffer := snprintf 32 c
          weather_layer_buffer :=
            snprintf 32 (snprintf 8 (fmt_d t ++ ['C']) ++ ", ".toList ++ snprintf 32 c) }
        iterator) h).2.2
  refine ⟨hw, ?_⟩
  intro h6 h31
  rw [hw]
  have e1 : (fmt_d t ++ ['C']).take 7 = fmt_d t ++ ['C'] :=
    List.take_of_length_le (by simp; omega)
  have e2 : c.take 31 = c := List.take_of_length_le (by omega)
  have e3 : ", ".toList = [',', ' '] := rfl
  have e4 : "C, ".toList = ['C', ',', ' '] := rfl
  rw [e1, e2, e3, e4]
  rw [List.take_of_length_le (by simp; omega)]
  simp

/-- C6. A tick at 10:30 followed by the response delivered during that minute
sends two requests although only one tick triggered: `inbox_received_callback`
reloads the window, and `main_window_load` runs `update_time`, which sends a
request whenever the minute is 0 or 30. -/
theorem sync_response_sends_request_at_half_hour :
    (inbox_received_callback (init no_storage host_10_17).1 response_sunny host_10_30).2
      = [Effect.layer_mark_dirty, Effect.app_message_outbox_send [(0, 0)]] ∧
    (app_event_loop (init no_storage host_10_17).1
      [(Event.Tick, host_10_30), (Event.SyncResponse response_sunny, host_10_30)]).2.countP
        Effect.is_request = 2 ∧
    List.countP is_triggering_tick
      [(Event.Tick, host_10_30), (Event.SyncResponse response_sunny, host_10_30)] = 1 := by
  decide

/-! ## The theorems at sample inputs -/

/-- C3 at 13:37 in 24-hour style: the hour row shows 13 and the minute row 37. -/
theorem display_layer_update_callback_shows_time_witness :
    (0 ≤ host_13_37.tm_hour ∧ host_13_37.tm_hour < 24) ∧
    (0 ≤ host_13_37.tm_min ∧ host_13_37.tm_min < 60) ∧
    (row_value (display_layer_update_callback (initial_state no_storage) host_13_37).1 : Int)
      = 13 ∧
    (row_value (display_layer_update_callback (initial_state no_storage) host_13_37).2 : Int)
      = 37 :=
  ⟨by decide, by decide,
    (display_layer_update_callback_shows_time (initial_state no_storage) host_13_37
      (by decide) (by decide)).2.2.2.2.1,
    (display_layer_update_callback_shows_time (initial_state no_storage) host_13_37
      (by decide) (by decide)).2.2.2.2.2⟩

/-- C9 for a row of 5 columns showing 13 at offset 12: five cells are drawn,
five cells of size 24 tile the 120 available units, column 0's cell box ends at
132 and column 4's starts at 12. -/
theorem cell_row_geometry_witness :
    ((5 : Nat) = 4 ∨ (5 : Nat) = 5 ∨ (5 : Nat) = 6) ∧
    (draw_cell_row_for_digit 13 (5 : Nat) 12).length = 5 ∧
    ((5 : Nat) : Int) * cell_size (cell_radius (5 : Nat)) = SCREEN_WIDTH - 2 * SIDE_PADDING ∧
    (∃ c0 cl, (draw_cell_row_for_digit 13 (5 : Nat) 12)[0]? = some c0 ∧
      (draw_cell_row_for_digit 13 (5 : Nat) 12)[5 - 1]? = some cl ∧
      c0.center.x + c0.radius + CIRCLE_PADDING = SCREEN_WIDTH - SIDE_PADDING ∧
      cl.center.x - cl.radius - CIRCLE_PADDING = SIDE_PADDING) :=
  ⟨by decide, (cell_row_geometry 5 (by decide) 13 12).1,
    (cell_row_geometry 5 (by decide) 13 12).2.2.1,
    (cell_row_geometry 5 (by decide) 13 12).2.2.2.2.1⟩

/-- C7 at 10:30: the tick sends a request. -/
theorem update_time_requests_weather_witness :
    (0 ≤ host_10_30.tm_min ∧ host_10_30.tm_min < 60) ∧
    ∃ fields, Effect.app_message_outbox_send fields
      ∈ (update_time (initial_state no_storage) host_10_30).2 :=
  ⟨by decide,
    (update_time_requests_weather (initial_state no_storage) host_10_30 (by decide)).1.mpr
      (by decide)⟩

/-- C8 at 00:00 with `HOURLY_VIBRATE` switched on by a response: the tick vibrates. -/
theorem update_time_hourly_vibrate_witness :
    (0 ≤ host_00_00.tm_min ∧ host_00_00.tm_min < 60) ∧
    Effect.vibes_short_pulse
      ∈ (update_time (inbox_received_callback (initial_state no_storage) response_settings
          host_10_17).1 host_00_00).2 :=
  ⟨by decide,
    (update_time_hourly_vibrate
      (inbox_received_callback (initial_state no_storage) response_settings host_10_17).1
      host_00_00 (by decide)).1.mpr (by decide)⟩

/-- C4 with start state disconnected and events connected, connected, disconnected: the second event repeats the state before it and does not vibrate. -/
theorem handle_bluetooth_vibrates_on_change_witness :
    (main_window_load (initial_state storage_bluetooth_on) host_13_37).1.BLUETOOTH_VIBRATE
      = true ∧
    (Effect.vibes_double_pulse ∈
      (handle_bluetooth
        (after_bluetooth_changes
          (main_window_load (initial_state storage_bluetooth_on) host_13_37).1
          ([true, true, false].take 1)) true).2
      ↔ true ≠ true) :=
  ⟨by decide,
    ((handle_bluetooth_vibrates_on_change (initial_state storage_bluetooth_on) host_13_37
      [true, true, false] (by decide)).2.2.2 1 true true rfl rfl).2.1⟩

/-- C5 from the defaults with empty storage: a response carrying `HOURLY_VIBRATE = 1` switches that setting on. -/
theorem inbox_received_callback_updates_carried_settings_witness :
    (∀ k, (initial_state no_storage).persist k = none ∨
      (initial_state no_storage).persist k = some ((initial_state no_storage).setting k)) ∧
    (inbox_received_callback (initial_state no_storage) response_settings
      host_10_17).1.setting SettingKey.HOURLY_VIBRATE = true :=
  ⟨fun _ => Or.inl rfl,
    inbox_received_callback_updates_carried_settings (initial_state no_storage)
      response_settings host_10_17 (fun _ => Or.inl rfl) SettingKey.HOURLY_VIBRATE⟩

/-- C2 (amended) after a "Sunny" response: a response with "Rain" only leaves the temperature part as it was. -/
theorem inbox_received_callback_conditions_only_witness :
    response_rain_only.TEMPERATURE = none ∧
    response_rain_only.CONDITIONS = some "Rain".toList ∧
    (inbox_received_callback
      (inbox_received_callback (init no_storage host_10_17).1 response_sunny host_10_17).1
      response_rain_only host_10_30).1.temperature_buffer
      = (inbox_received_callback (init no_storage host_10_17).1 response_sunny
          host_10_17).1.temperature_buffer :=
  ⟨rfl, rfl,
    (inbox_received_callback_conditions_only
      (inbox_received_callback (init no_storage host_10_17).1 response_sunny host_10_17).1
      response_rain_only host_10_30 "Rain".toList rfl rfl).1⟩

/-- C10 (amended) for temperature 21 and "Sunny": the weather text is the full "21C, Sunny". -/
theorem inbox_received_callback_weather_text_witness :
    response_sunny.TEMPERATURE = some 21 ∧
    response_sunny.CONDITIONS = some "Sunny".toList ∧
    (inbox_received_callback (init no_storage host_10_17).1 response_sunny
      host_10_17).1.weather_layer_buffer = fmt_d 21 ++ "C, ".toList ++ "Sunny".toList :=
  ⟨rfl, rfl,
    (inbox_received_callback_weather_text (init no_storage host_10_17).1 response_sunny
      host_10_17 21 "Sunny".toList rfl rfl).2 (by decide) (by decide)⟩

end PebbleBinary
